import Mathlib

/-
  Shallow embedding of the NestJS controller-to-client generator
  (src/client-generator.ts: `ClientGenerator`, `NestControllerExtractor`,
  and the `http.metadata` IR types).

  The declaration trees handed to the extractor by the excluded
  project-loading collaborator (ts-morph) are modelled as plain records
  carrying exactly the facts the extractor reads: names, decorators
  (name, positional argument source texts, and the type of the decorator
  expression), parameter types, and the declared return type a method
  exposes at the boundary.  JavaScript values that may be `undefined`
  are modelled as `Option`; a thrown exception is `Except.error`.
-/

/-- Embedding of the ts-morph `Type` objects the extractor consumes.
`generic n arg` is an applied single-argument generic such as
`Promise<User>` (the only arity the code ever indexes, via
`getTypeArguments()[0]`); `structured n props` is a named structured
type (interface / DTO) whose `getText()` prints its name and whose
properties support `getPropertyOrThrow`; `functionType params ret` is a
function type printing as `(params) => ret`, which is what
`MethodDeclaration.getType()` yields for a method node; `named t`
covers every other type by its printed text (type references, and
compound types such as the array type `Promise<User>[]` or unions). -/
inductive TsType : Type where
  | voidType : TsType
  | named : String → TsType
  | generic : String → TsType → TsType
  | structured : String → List (String × TsType) → TsType
  | functionType : String → TsType → TsType

/-- `Type.getText()`. -/
def TsType.getText : TsType → String
  | TsType.voidType => "void"
  | TsType.named n => n
  | TsType.generic n arg => n ++ "<" ++ TsType.getText arg ++ ">"
  | TsType.structured n _ => n
  | TsType.functionType params ret => "(" ++ params ++ ") => " ++ TsType.getText ret

/-- `Type.getTypeArguments()`. -/
def TsType.getTypeArguments : TsType → List TsType
  | TsType.generic _ arg => [arg]
  | _ => []

/-- `Type.isVoid()`. -/
def TsType.isVoid : TsType → Bool
  | TsType.voidType => true
  | _ => false

/-- The properties of a structured type (empty for every other type),
backing `Type.getPropertyOrThrow`. -/
def TsType.properties : TsType → List (String × TsType)
  | TsType.structured _ props => props
  | _ => []

/-- A decorator as the extractor reads it: its name, the source texts of
its positional arguments (`getArguments()[i].compilerNode.getText()`),
and the type of the decorator expression (`Decorator.getType()`). -/
structure Decorator : Type where
  name : String
  args : List String
  type : TsType

/-- A method parameter: name, decorators, declared type. -/
structure ParameterDeclaration : Type where
  name : String
  decorators : List Decorator
  type : TsType

/-- A method: name, decorators, parameters, and the type of the method
node itself (`method.getType()`).  In ts-morph this is the method's
*function* type, printing as `(params) => returnType` — not the
declared return type, which only `getReturnType()` (never called by the
code) would give. -/
structure MethodDeclaration : Type where
  name : String
  decorators : List Decorator
  parameters : List ParameterDeclaration
  type : TsType

/-- A class declaration: name (`getName()!`), decorators, methods. -/
structure ClassDeclaration : Type where
  name : String
  decorators : List Decorator
  methods : List MethodDeclaration

/-- A source file: its base name (`getBaseName()`) and classes. -/
structure SourceFile : Type where
  baseName : String
  classes : List ClassDeclaration

/- ---------- JavaScript string / regex primitives used by the code ---------- -/

/-- The apostrophe character, written by code point to keep source free
of quote characters. -/
def quoteChar : Char := Char.ofNat 39

/-- `s.replace(/'/g, '')`: removes every apostrophe. -/
def jsRemoveQuotes (s : String) : String :=
  String.mk (s.data.filter (fun c => c != quoteChar))

/-- Wrap a string in apostrophes (used to build decorator-argument
source texts such as the text of the literal `'users'`). -/
def quoted (s : String) : String :=
  String.mk (quoteChar :: (s.data ++ [quoteChar]))

/-- `s.startsWith(pre)`. -/
def jsStartsWith (s pre : String) : Bool :=
  s.data.take pre.data.length == pre.data

/-- `s.endsWith(suffix)`. -/
def jsEndsWith (s suffix : String) : Bool :=
  suffix.data.isSuffixOf s.data

/-- Auxiliary for `jsSplit`: accumulates the current piece (reversed). -/
def jsSplitAux (sep : Char) : List Char → List Char → List String
  | [], acc => [String.mk acc.reverse]
  | c :: cs, acc =>
    if c == sep then String.mk acc.reverse :: jsSplitAux sep cs []
    else jsSplitAux sep cs (c :: acc)

/-- `s.split(sep)` for a single-character separator; `"".split(sep)`
is `[""]`, and a leading separator yields a leading empty piece. -/
def jsSplit (s : String) (sep : Char) : List String :=
  jsSplitAux sep s.data []

/-- Template-literal rendering of a JavaScript string-or-undefined
value: `undefined` prints as "undefined". -/
def jsTemplateStr : Option String → String
  | some s => s
  | none => "undefined"

/-- Result of `RegExp.exec`: the full match and capture group 1
(`undefined` when the pattern has no first capture group). -/
structure RegexMatchResult : Type where
  fullMatch : String
  group1 : Option String

/-- `/^:[^(]+/.exec(p)`: matches when `p` starts with a colon followed
by at least one character other than an opening parenthesis; the full
match is the colon plus the maximal such run.  The pattern contains no
capturing group, so index 1 of the match array is always `undefined`
(`group1 = none`). -/
def execParamPattern (p : String) : Option RegexMatchResult :=
  match p.data with
  | c :: c2 :: rest =>
    if c == ':' && c2 != '(' then
      some ⟨String.mk (c :: (c2 :: rest).takeWhile (fun ch => ch != '(')), none⟩
    else none
  | _ => none

/-- `/([^\/]+)\.controller\.ts$/.exec(baseName)` reduced to its capture
group: the maximal run of non-slash characters immediately before the
literal suffix ".controller.ts" at the end of the string; `none` when
the regex does not match (no suffix, or an empty run). -/
def controllerFileSuffix : String := ".controller.ts"

def execControllerFileName (s : String) : Option String :=
  if jsEndsWith s controllerFileSuffix then
    let base :=
      ((s.data.take (s.data.length - controllerFileSuffix.data.length)).reverse.takeWhile
        (fun c => c != '/')).reverse
    if base.isEmpty then none else some (String.mk base)
  else none

/-- Message of the TypeError raised when a property of `undefined` is
read (e.g. a non-null assertion on an absent value). -/
def typeErrorUndefined : String := "TypeError: Cannot read properties of undefined"

/-- Message of the TypeError raised when a property of `null` is read
(the failed non-null-asserted regex match in `extractFileBaseName`). -/
def typeErrorNull : String := "TypeError: Cannot read properties of null"

/-- `mapExcept f l` embeds a JavaScript `Array.map` whose callback may
throw: elements are processed left to right and the first exception
aborts the whole map. -/
def mapExcept {α β : Type} (f : α → Except String β) : List α → Except String (List β)
  | [] => Except.ok []
  | a :: l =>
    match f a with
    | Except.error e => Except.error e
    | Except.ok b =>
      match mapExcept f l with
      | Except.error e => Except.error e
      | Except.ok bs => Except.ok (b :: bs)

/- ---------- IR model (http.metadata.ts) ---------- -/

/-- `HttpMethod`. -/
inductive HttpMethod : Type where
  | GET | POST | PUT | DELETE | PATCH
deriving DecidableEq

def HttpMethod.text : HttpMethod → String
  | HttpMethod.GET => "GET"
  | HttpMethod.POST => "POST"
  | HttpMethod.PUT => "PUT"
  | HttpMethod.DELETE => "DELETE"
  | HttpMethod.PATCH => "PATCH"

/-- One element of a route path: `string | PathParameter`.  The
parameter name is carried as the JavaScript value the extractor stores
there, which may be `undefined` (`none`). -/
inductive PathSegment : Type where
  | literal : String → PathSegment
  | parameter : Option String → TsType → PathSegment

/-- `requestBody` entry of the IR; the type may be the `undefined`
produced by indexing an empty type-argument list. -/
structure RequestBodyMeta : Type where
  name : String
  type : Option TsType

/-- `responseBody` entry of the IR. -/
structure ResponseBodyMeta : Type where
  type : TsType

/-- `queryParameters` entry of the IR. -/
structure QueryParametersMeta : Type where
  name : String
  type : TsType

/-- `HttpMethodMetaData`.  The `method` field is the result of indexing
the verb table with the decorator name, hence `Option` (a JavaScript
record lookup yields `undefined` on a missing key). -/
structure HttpMethodMetaData : Type where
  name : String
  path : List PathSegment
  method : Option HttpMethod
  requestBody : Option RequestBodyMeta
  responseBody : Option ResponseBodyMeta
  queryParameters : Option QueryParametersMeta

/-- `HttpClassMetaData`. -/
structure HttpClassMetaData : Type where
  baseName : String
  methods : List HttpMethodMetaData

/-- `HttpFileMetaData`. -/
structure HttpFileMetaData : Type where
  apiName : String
  fileBaseName : String
  classes : List HttpClassMetaData

/- ---------- Extractor (NestControllerExtractor) ---------- -/

/-- `node.getDecorator(name)`: first decorator with the given name. -/
def getDecorator (decorators : List Decorator) (n : String) : Option Decorator :=
  decorators.find? (fun d => d.name == n)

/-- The verb table `httpMethodByDecoratorName`. -/
def httpMethodByDecoratorName : List (String × HttpMethod) :=
  [("Get", HttpMethod.GET), ("Post", HttpMethod.POST), ("Put", HttpMethod.PUT),
   ("Delete", HttpMethod.DELETE), ("Patch", HttpMethod.PATCH)]

/-- Indexing the verb table with a decorator name, restricted to the
table's own five entries. -/
def lookupHttpMethod (n : String) : Option HttpMethod :=
  (httpMethodByDecoratorName.find? (fun e => e.1 == n)).map (fun e => e.2)

/-- The keys any plain object literal inherits from
`Object.prototype`, all visible to the JavaScript `in` operator. -/
def objectPrototypeKeys : List String :=
  ["constructor", "hasOwnProperty", "isPrototypeOf", "propertyIsEnumerable",
   "toLocaleString", "toString", "valueOf", "__proto__",
   "__defineGetter__", "__defineSetter__", "__lookupGetter__", "__lookupSetter__"]

/-- The test `d.getName() in this.httpMethodByDecoratorName`: the
JavaScript `in` operator walks the prototype chain, so it is true for
the five own verb keys *and* for every key inherited from
`Object.prototype` (`toString`, `valueOf`, `constructor`, ...). -/
def jsInHttpMethodByDecoratorName (n : String) : Bool :=
  (lookupHttpMethod n).isSome || objectPrototypeKeys.contains n

/-- `getHttpMethodDecorator`: first decorator whose name passes the
`in` test on the verb table. -/
def getHttpMethodDecorator (m : MethodDeclaration) : Option Decorator :=
  m.decorators.find? (fun d => jsInHttpMethodByDecoratorName d.name)

/-- `isHttpMethod`. -/
def isHttpMethod (m : MethodDeclaration) : Bool :=
  (getHttpMethodDecorator m).isSome

/-- `isControllerClass`. -/
def isControllerClass (c : ClassDeclaration) : Bool :=
  (getDecorator c.decorators "Controller").isSome

/-- `isControllerFile`. -/
def isControllerFile (f : SourceFile) : Bool :=
  f.classes.any isControllerClass

/-- `extractPathOfDecorator`: empty string when there is no first
argument, otherwise the argument source text with apostrophes
removed. -/
def extractPathOfDecorator (d : Decorator) : String :=
  match d.args with
  | [] => ""
  | a :: _ => jsRemoveQuotes a

/-- `extractBasePathFromClassDeclaration`; the non-null assertion on
`getDecorator('Controller')` crashes when absent. -/
def extractBasePathFromClassDeclaration (c : ClassDeclaration) : Except String String :=
  match getDecorator c.decorators "Controller" with
  | some d => Except.ok (extractPathOfDecorator d)
  | none => Except.error typeErrorUndefined

/-- The error thrown at the end of `extractPathParameterType`; the
template literal renders an `undefined` parameter name as
"undefined". -/
def parameterNotFoundMessage (parameterName : Option String) (methodName : String) : String :=
  "No parameter with name " ++ jsTemplateStr parameterName ++ " found in method " ++ methodName

/-- `Type.getPropertyOrThrow(name).getDeclaredType()`: the declared
type of the property with the given name; throws when the lookup fails
(in particular always when the name is `undefined`). -/
def getPropertyOrThrowDeclaredType (t : TsType) (name : Option String) : Except String TsType :=
  match (TsType.properties t).find? (fun pr => name == some pr.1) with
  | some pr => Except.ok pr.2
  | none => Except.error ("Expected to find property " ++ jsTemplateStr name)

/-- Loop body of `extractPathParameterType` over the method's
parameters: a `Param` decorator with a first argument equal to the
sought name yields the parameter's declared type (indexing an absent
first argument crashes); otherwise a `Params` decorator resolves via
`getPropertyOrThrow` on the decorator's type; a `Param` mismatch
`continue`s past the parameter. -/
def extractPathParameterTypeGo (parameterName : Option String) (methodName : String) :
    List ParameterDeclaration → Except String TsType
  | [] => Except.error (parameterNotFoundMessage parameterName methodName)
  | p :: rest =>
    match getDecorator p.decorators "Param" with
    | some pd =>
      match pd.args with
      | [] => Except.error typeErrorUndefined
      | a :: _ =>
        if parameterName == some (jsRemoveQuotes a) then Except.ok p.type
        else extractPathParameterTypeGo parameterName methodName rest
    | none =>
      match getDecorator p.decorators "Params" with
      | some psd => getPropertyOrThrowDeclaredType psd.type parameterName
      | none => extractPathParameterTypeGo parameterName methodName rest

/-- `extractPathParameterType`. -/
def extractPathParameterType (method : MethodDeclaration) (parameterName : Option String) :
    Except String TsType :=
  extractPathParameterTypeGo parameterName method.name method.parameters

/-- One piece of `parsePath`'s map: a piece matching the parameter
pattern becomes a `Parameter` segment named by capture group 1 of the
pattern (always `undefined`, see `execParamPattern`) and typed by
`extractPathParameterType`; every other piece is a `Literal`. -/
def parsePathSegment (method : MethodDeclaration) (p : String) : Except String PathSegment :=
  match execParamPattern p with
  | some mres =>
    match extractPathParameterType method mres.group1 with
    | Except.error e => Except.error e
    | Except.ok parameterType => Except.ok (PathSegment.parameter mres.group1 parameterType)
  | none => Except.ok (PathSegment.literal p)

/-- `parsePath`. -/
def parsePath (basePath : String) (decorator : Decorator) (method : MethodDeclaration) :
    Except String (List PathSegment) :=
  mapExcept (parsePathSegment method) (jsSplit (basePath ++ extractPathOfDecorator decorator) '/')

/-- `isPromiseType`. -/
def isPromiseType (t : TsType) : Bool :=
  jsStartsWith (TsType.getText t) "Promise<"

/-- The unwrap step `if (isPromiseType(t)) t = t.getTypeArguments()[0]`
shared by `extractRequestBody` and `extractResponseBody`; indexing an
empty type-argument list yields `undefined` (`none`). -/
def jsUnwrapPromise (t : TsType) : Option TsType :=
  if isPromiseType t then (TsType.getTypeArguments t)[0]? else some t

/-- `extractRequestBody`. -/
def extractRequestBody (m : MethodDeclaration) : Option RequestBodyMeta :=
  match m.parameters.find? (fun p => (getDecorator p.decorators "Body").isSome) with
  | none => none
  | some p => some ⟨p.name, jsUnwrapPromise p.type⟩

/-- `extractResponseBody`; calling `.isVoid()` on the `undefined`
produced by unwrapping an argumentless Promise type crashes. -/
def extractResponseBody (m : MethodDeclaration) : Except String (Option ResponseBodyMeta) :=
  match jsUnwrapPromise m.type with
  | none => Except.error typeErrorUndefined
  | some t => Except.ok (if TsType.isVoid t then none else some ⟨t⟩)

/-- `extractQueryParametersType`. -/
def extractQueryParametersType (m : MethodDeclaration) : Option QueryParametersMeta :=
  match m.parameters.find? (fun p => (getDecorator p.decorators "QueryParams").isSome) with
  | none => none
  | some p => some ⟨p.name, p.type⟩

/-- `extractHttpMethodMetaData`; the non-null assertion on
`getHttpMethodDecorator` crashes when absent, and the object literal
evaluates `path` before `responseBody`.  The `method` field indexes the
verb table (`this.httpMethodByDecoratorName[decorator.getName()]`),
modelled as own-key lookup; for a verb decorator admitted through an
inherited `Object.prototype` key, JavaScript indexing would read the
inherited member (a function object), a value outside `HttpMethod`
recorded here as `none` — no theorem below depends on that case. -/
def extractHttpMethodMetaData (basePath : String) (m : MethodDeclaration) :
    Except String HttpMethodMetaData :=
  match getHttpMethodDecorator m with
  | none => Except.error typeErrorUndefined
  | some d =>
    match parsePath basePath d m with
    | Except.error e => Except.error e
    | Except.ok path =>
      match extractResponseBody m with
      | Except.error e => Except.error e
      | Except.ok responseBody =>
        Except.ok ⟨m.name, path, lookupHttpMethod d.name, extractRequestBody m,
          responseBody, extractQueryParametersType m⟩

/-- `extractHttpMethodMetaDataFromClassDeclaration`. -/
def extractHttpMethodMetaDataFromClassDeclaration (basePath : String) (c : ClassDeclaration) :
    Except String (List HttpMethodMetaData) :=
  mapExcept (extractHttpMethodMetaData basePath) (c.methods.filter isHttpMethod)

/-- `classDeclaration.getName()!.replace(/Controller$/, '')`. -/
def jsStripControllerSuffix (s : String) : String :=
  if jsEndsWith s "Controller" then
    String.mk (s.data.take (s.data.length - 10))
  else s

/-- `extractHttpClassMetaDataFromClassDeclaration`. -/
def extractHttpClassMetaDataFromClassDeclaration (c : ClassDeclaration) :
    Except String HttpClassMetaData :=
  match extractBasePathFromClassDeclaration c with
  | Except.error e => Except.error e
  | Except.ok basePath =>
    match extractHttpMethodMetaDataFromClassDeclaration basePath c with
    | Except.error e => Except.error e
    | Except.ok methods => Except.ok ⟨jsStripControllerSuffix c.name, methods⟩

/-- `extractHttpClassMetaData`. -/
def extractHttpClassMetaData (f : SourceFile) : Except String (List HttpClassMetaData) :=
  mapExcept extractHttpClassMetaDataFromClassDeclaration (f.classes.filter isControllerClass)

/-- `extractApiName` (stubbed to a constant in the source). -/
def extractApiName (_ : SourceFile) : String := "wip"

/-- `extractFileBaseName`: capture group 1 of the controller-file-name
regex, with the non-null assertion crashing on a failed match. -/
def extractFileBaseName (f : SourceFile) : Except String String :=
  match execControllerFileName f.baseName with
  | some base => Except.ok base
  | none => Except.error typeErrorNull

/-- `extractHttpFileMetadata`; the object literal evaluates
`fileBaseName` before `classes`. -/
def extractHttpFileMetadata (f : SourceFile) : Except String HttpFileMetaData :=
  match extractFileBaseName f with
  | Except.error e => Except.error e
  | Except.ok fileBaseName =>
    match extractHttpClassMetaData f with
    | Except.error e => Except.error e
    | Except.ok classes => Except.ok ⟨extractApiName f, fileBaseName, classes⟩

/-- `extractHttpFilesMetadata`. -/
def extractHttpFilesMetadata (files : List SourceFile) : Except String (List HttpFileMetaData) :=
  mapExcept extractHttpFileMetadata (files.filter isControllerFile)

/- ---------- Generator (ClientGenerator) ---------- -/

/-- `ParameterDeclarationStructure` as the generator fills it: a name
(the JavaScript value stored there, possibly `undefined`) and a type
text. -/
structure ParameterStructure : Type where
  name : Option String
  type : String

/-- The trailing `options: RequestOptions` parameter. -/
def optionsParameterStructure : ParameterStructure :=
  ⟨some "options", "RequestOptions"⟩

/-- One iteration of the path loop in `generateHttpMethodParameters`:
literal segments are skipped (`continue`), parameter segments push a
structure named after the path parameter and typed by
`parameterType.getText()`. -/
def pushPathParameterStep (acc : List ParameterStructure) (seg : PathSegment) :
    List ParameterStructure :=
  match seg with
  | PathSegment.literal _ => acc
  | PathSegment.parameter n t => acc ++ [ParameterStructure.mk n (TsType.getText t)]

/-- `type.getText()` on a possibly-`undefined` type value; reading a
property of `undefined` crashes. -/
def jsGetText : Option TsType → Except String String
  | some t => Except.ok (TsType.getText t)
  | none => Except.error typeErrorUndefined

/-- Appends the optional query-parameters structure and the trailing
options structure (the last two pushes of the loop). -/
def appendQueryAndOptions (md : HttpMethodMetaData) (parameters : List ParameterStructure) :
    List ParameterStructure :=
  (match md.queryParameters with
   | none => parameters
   | some q => parameters ++ [ParameterStructure.mk (some q.name) (TsType.getText q.type)]) ++
  [optionsParameterStructure]

/-- `generateHttpMethodParameters`: path parameters in path order, then
the request body (if any), then the query parameters (if any), then
always `options`. -/
def generateHttpMethodParameters (md : HttpMethodMetaData) (path : List PathSegment) :
    Except String (List ParameterStructure) :=
  let parameters := path.foldl pushPathParameterStep []
  match md.requestBody with
  | none => Except.ok (appendQueryAndOptions md parameters)
  | some rb =>
    match jsGetText rb.type with
    | Except.error e => Except.error e
    | Except.ok bodyTypeText =>
      Except.ok (appendQueryAndOptions md
        (parameters ++ [ParameterStructure.mk (some rb.name) bodyTypeText]))

/-- Template-literal interpolation of a ts-morph `Type` object: the
`Type` class does not override `Object.prototype.toString`, so the
object renders as the default object stringification — not as
`getText()`. -/
def jsTemplateType (_ : TsType) : String := "[object Object]"

/-- The generated return type
`Promise<${responseBody?.type ?? 'void'}>`; an absent response body
contributes "void" through the `??` fallback, while a present one
interpolates the `Type` object itself (see `jsTemplateType`). -/
def generatedReturnType (md : HttpMethodMetaData) : String :=
  "Promise<" ++
    (match md.responseBody with
     | some rb => jsTemplateType rb.type
     | none => "void") ++ ">"

/-- Template-literal rendering of the verb value (a missing table entry
would interpolate as "undefined"). -/
def jsHttpMethodTemplate : Option HttpMethod → String
  | some v => v.text
  | none => "undefined"

/-- The backtick, as a string. -/
def backtickStr : String := "`"

/-- One piece of the URL template: a literal segment verbatim, a
parameter segment as a placeholder interpolating its generated
parameter. -/
def pathSegmentTemplate : PathSegment → String
  | PathSegment.literal p => p
  | PathSegment.parameter n _ => "$\x7b" ++ jsTemplateStr n ++ "\x7d"

/-- The `const url = \`...\`;` statement. -/
def urlStatement (md : HttpMethodMetaData) : String :=
  "const url = " ++ backtickStr ++
    String.intercalate "/" (md.path.map pathSegmentTemplate) ++ backtickStr ++ ";"

/-- The statement lines written by `generateClientMethod`'s writer. -/
def generateStatements (md : HttpMethodMetaData) : List String :=
  [urlStatement md,
   "return http.request(\x7b",
   "  ...options,",
   "  url,",
   "  method: " ++ quoted (jsHttpMethodTemplate md.method) ++ ","] ++
  (match md.requestBody with
   | none => []
   | some rb => ["  body: " ++ rb.name ++ ","]) ++
  (match md.queryParameters with
   | none => []
   | some q => ["  queryParams: " ++ q.name ++ ","]) ++
  ["\x7d);"]

/-- The structure handed to `clientClass.addMethod`. -/
structure MethodStructure : Type where
  name : String
  returnType : String
  parameters : List ParameterStructure
  isAsync : Bool
  statements : List String

/-- `generateClientMethod` (parameters are computed first, then the
method structure is assembled). -/
def generateClientMethod (md : HttpMethodMetaData) : Except String MethodStructure :=
  match generateHttpMethodParameters md md.path with
  | Except.error e => Except.error e
  | Except.ok params =>
    Except.ok ⟨md.name, generatedReturnType md, params, true, generateStatements md⟩

/-- The structure handed to `clientFile.addClass` together with its
generated methods: an exported class named `<baseName>Client`. -/
structure ClassStructure : Type where
  name : String
  isExported : Bool
  methods : List MethodStructure

/-- `generateClientClass`. -/
def generateClientClass (c : HttpClassMetaData) : Except String ClassStructure :=
  match mapExcept generateClientMethod c.methods with
  | Except.error e => Except.error e
  | Except.ok ms => Except.ok ⟨c.baseName ++ "Client", true, ms⟩

/- ---------- Spec-side description of the generated parameter list ---------- -/

/-- Spec reading of one path segment's contribution to the parameter
list: `Parameter` segments contribute one plainly typed parameter named
after the path parameter, literals contribute nothing. -/
def pathSegmentParamStructure : PathSegment → Option ParameterStructure
  | PathSegment.literal _ => none
  | PathSegment.parameter n t => some ⟨n, TsType.getText t⟩

/-- Spec reading of the request-body contribution: one parameter when a
request body is present, none otherwise. -/
def requestBodyStructures (md : HttpMethodMetaData) : Except String (List ParameterStructure) :=
  match md.requestBody with
  | none => Except.ok []
  | some rb =>
    match jsGetText rb.type with
    | Except.error e => Except.error e
    | Except.ok tx => Except.ok [ParameterStructure.mk (some rb.name) tx]

/-- Spec reading of the query-parameters contribution. -/
def queryStructures (md : HttpMethodMetaData) : List ParameterStructure :=
  match md.queryParameters with
  | none => []
  | some q => [ParameterStructure.mk (some q.name) (TsType.getText q.type)]

/-- The parameter list exactly as the spec states it: path parameters
in path order, then request body if any, then query parameters if any,
then always the trailing options parameter. -/
def specParameterOrder (md : HttpMethodMetaData) : Except String (List ParameterStructure) :=
  match requestBodyStructures md with
  | Except.error e => Except.error e
  | Except.ok body =>
    Except.ok (md.path.filterMap pathSegmentParamStructure ++ body ++
      queryStructures md ++ [optionsParameterStructure])

/-- Predicate relating one piece of the split path to the IR segment
extracted for it: a piece matching the parameter pattern corresponds to
a `Parameter` segment, every other piece to a `Literal` segment holding
the piece verbatim. -/
def segmentMatchesPiece (p : String) (s : PathSegment) : Prop :=
  match execParamPattern p with
  | some _ => ∃ n t, s = PathSegment.parameter n t
  | none => s = PathSegment.literal p

/- ---------- Concrete declaration trees used by the theorems below ---------- -/

/-- A `@Get('/:id') getUser(@Param('id') id: number): Promise<User>`
method. -/
def getUserMethod : MethodDeclaration :=
  ⟨"getUser",
   [⟨"Get", [quoted "/:id"], TsType.voidType⟩],
   [⟨"id", [⟨"Param", [quoted "id"], TsType.voidType⟩], TsType.named "number"⟩],
   TsType.functionType "id: number" (TsType.generic "Promise" (TsType.named "User"))⟩

/-- A `@Controller('/users')` class containing `getUserMethod`. -/
def usersControllerClass : ClassDeclaration :=
  ⟨"UsersController", [⟨"Controller", [quoted "/users"], TsType.voidType⟩], [getUserMethod]⟩

/-- A `@Get(':orgId') findOrg(): Promise<Org>` method whose path
parameter has no binding among its (empty) parameter list. -/
def findOrgMethod : MethodDeclaration :=
  ⟨"findOrg",
   [⟨"Get", [quoted ":orgId"], TsType.voidType⟩],
   [],
   TsType.functionType "" (TsType.generic "Promise" (TsType.named "Org"))⟩

/-- A bare `@Controller()` class containing `findOrgMethod`. -/
def orgControllerClass : ClassDeclaration :=
  ⟨"OrgController", [⟨"Controller", [], TsType.voidType⟩], [findOrgMethod]⟩

/-- The structured type `IdParams` with a property `id: number`. -/
def idParamsType : TsType :=
  TsType.structured "IdParams" [("id", TsType.named "number")]

/-- A `@Get(':id') getThing(@Params() p: IdParams): Promise<Thing>`
method; the `Params` decorator expression is (charitably) given the
structured type carrying the `id` property. -/
def getThingMethod : MethodDeclaration :=
  ⟨"getThing",
   [⟨"Get", [quoted ":id"], TsType.voidType⟩],
   [⟨"p", [⟨"Params", [], idParamsType⟩], idParamsType⟩],
   TsType.functionType "p: IdParams" (TsType.generic "Promise" (TsType.named "Thing"))⟩

/-- A `@Get('ping') ping(): Promise<void>` method (no path parameters,
declared return type `Promise<void>`); its method-node type is the
function type `() => Promise<void>`. -/
def pingMethod : MethodDeclaration :=
  ⟨"ping",
   [⟨"Get", [quoted "ping"], TsType.voidType⟩],
   [],
   TsType.functionType "" (TsType.generic "Promise" TsType.voidType)⟩

/-- The IR the extractor actually produces for `pingMethod` under an
empty base path: the response body carries the method's function type,
because `method.getType()` is not the return type. -/
def pingMetaData : HttpMethodMetaData :=
  ⟨"ping", [PathSegment.literal "ping"], some HttpMethod.GET, none,
   some ⟨TsType.functionType "" (TsType.generic "Promise" TsType.voidType)⟩, none⟩

/-- A `@Get('list') list(): Promise<Item>` method used to exercise
`parsePath` on a parameter-free path. -/
def listMethod : MethodDeclaration :=
  ⟨"list",
   [⟨"Get", [quoted "/list"], TsType.voidType⟩],
   [],
   TsType.functionType "" (TsType.generic "Promise" (TsType.named "Item"))⟩

/-- The `Get` decorator of `listMethod`. -/
def listGetDecorator : Decorator :=
  ⟨"Get", [quoted "/list"], TsType.voidType⟩

/-- A decorator whose first argument is the numeric literal `42` —
an argument present but not readable as a string literal. -/
def numericArgDecorator : Decorator :=
  ⟨"Get", ["42"], TsType.voidType⟩

/-- A `Controller` decorator with no argument. -/
def bareControllerDecorator : Decorator :=
  ⟨"Controller", [], TsType.voidType⟩

/-- A trivial method with no decorators or parameters, used where only
the path is of interest. -/
def plainMethod : MethodDeclaration :=
  ⟨"plain", [], [], TsType.functionType "" TsType.voidType⟩

/-- A decorator outside the recognized vocabulary. -/
def deprecatedDecorator : Decorator :=
  ⟨"Deprecated", [], TsType.voidType⟩

/-- A method carrying only the unrecognized decorator. -/
def deprecatedOnlyMethod : MethodDeclaration :=
  ⟨"helper", [deprecatedDecorator], [], TsType.functionType "" TsType.voidType⟩

/-- A decorator named `toString` — not in the fixed vocabulary, but an
inherited key of `Object.prototype`. -/
def toStringDecorator : Decorator :=
  ⟨"toString", [], TsType.voidType⟩

/-- A method carrying only the `@toString()` decorator. -/
def toStringOnlyMethod : MethodDeclaration :=
  ⟨"render", [toStringDecorator], [], TsType.functionType "" TsType.voidType⟩

/-- The `Get` decorator used in the insertion-invariance witness. -/
def pingGetDecorator : Decorator :=
  ⟨"Get", [quoted "ping"], TsType.voidType⟩

/-- A controller-bearing source file whose name does not end in
`.controller.ts`. -/
def badNameFile : SourceFile :=
  ⟨"users.ts", [⟨"UsersController", [bareControllerDecorator], []⟩]⟩

/-- The fixed vocabulary of recognized decorator names. -/
def recognizedDecoratorNames : List String :=
  ["Controller", "Get", "Post", "Put", "Delete", "Patch",
   "Param", "Params", "Body", "QueryParams"]

/- ---------- Helper lemmas ---------- -/

/-- A successful `mapExcept` relates input and output pointwise. -/
theorem mapExcept_ok_forall2 {α β : Type} {f : α → Except String β} :
    ∀ {l : List α} {r : List β}, mapExcept f l = Except.ok r →
      List.Forall₂ (fun a b => f a = Except.ok b) l r := by
  intro l
  induction l with
  | nil =>
    intro r h
    unfold mapExcept at h
    cases h
    exact List.Forall₂.nil
  | cons a l ih =>
    intro r h
    unfold mapExcept at h
    cases hfa : f a with
    | error e => rw [hfa] at h; cases h
    | ok b =>
      rw [hfa] at h
      cases hfl : mapExcept f l with
      | error e => rw [hfl] at h; cases h
      | ok bs =>
        rw [hfl] at h
        cases h
        exact List.Forall₂.cons hfa (ih hfl)

/-- `find?` skips an inserted element the predicate rejects. -/
theorem find?_middle_of_neg {α : Type} (p : α → Bool) (d : α) (hd : p d = false) :
    ∀ (l₁ l₂ : List α), (l₁ ++ d :: l₂).find? p = (l₁ ++ l₂).find? p
  | [], l₂ => by
    simp only [List.nil_append]
    exact List.find?_cons_of_neg l₂ (by simp [hd])
  | a :: l₁, l₂ => by
    simp only [List.cons_append]
    cases hpa : p a with
    | true => rw [List.find?_cons_of_pos _ hpa, List.find?_cons_of_pos _ hpa]
    | false =>
      rw [List.find?_cons_of_neg _ (by simp [hpa]), List.find?_cons_of_neg _ (by simp [hpa])]
      exact find?_middle_of_neg p d hd l₁ l₂

/-- A name outside the vocabulary is not a verb-table key. -/
theorem lookupHttpMethod_eq_none {n : String} (h : ¬ n ∈ recognizedDecoratorNames) :
    lookupHttpMethod n = none := by
  have h1 : n ≠ "Get" := fun he => h (by rw [he]; decide)
  have h2 : n ≠ "Post" := fun he => h (by rw [he]; decide)
  have h3 : n ≠ "Put" := fun he => h (by rw [he]; decide)
  have h4 : n ≠ "Delete" := fun he => h (by rw [he]; decide)
  have h5 : n ≠ "Patch" := fun he => h (by rw [he]; decide)
  have e1 : (("Get" : String) == n) = false := beq_eq_false_iff_ne.mpr (Ne.symm h1)
  have e2 : (("Post" : String) == n) = false := beq_eq_false_iff_ne.mpr (Ne.symm h2)
  have e3 : (("Put" : String) == n) = false := beq_eq_false_iff_ne.mpr (Ne.symm h3)
  have e4 : (("Delete" : String) == n) = false := beq_eq_false_iff_ne.mpr (Ne.symm h4)
  have e5 : (("Patch" : String) == n) = false := beq_eq_false_iff_ne.mpr (Ne.symm h5)
  simp [lookupHttpMethod, httpMethodByDecoratorName, List.find?, e1, e2, e3, e4, e5]

/-- Unrolling the parameter-push loop of the generator. -/
theorem foldl_push_eq_filterMap (path : List PathSegment) (init : List ParameterStructure) :
    path.foldl pushPathParameterStep init = init ++ path.filterMap pathSegmentParamStructure := by
  induction path generalizing init with
  | nil => simp
  | cons seg rest ih =>
    cases seg with
    | literal t =>
      simp [List.foldl_cons, List.filterMap_cons, pushPathParameterStep,
        pathSegmentParamStructure, ih]
    | parameter n t =>
      simp [List.foldl_cons, List.filterMap_cons, pushPathParameterStep,
        pathSegmentParamStructure, ih, List.append_assoc]

/- ---------- Claim theorems ---------- -/

/-- Claim C1: the spec scenario — `@Controller('/users')` with
`@Get('/:id') getUser(@Param('id') id: number): Promise<User>` — does
not produce the stated IR and generated method: extraction of the class
throws, because the parameter pattern `/^:[^(]+/` has no capture group,
so the extracted parameter name is `undefined` and never matches the
`Param('id')` binding. -/
theorem c1_scenario_extraction_throws :
    extractHttpClassMetaDataFromClassDeclaration usersControllerClass =
      Except.error "No parameter with name undefined found in method getUser" := rfl

/-- Claim C3: a route path containing `:orgId` with no binding makes
extraction fail and the error names the method — but the parameter name
it reports is "undefined", not "orgId", again because capture group 1
of the group-less parameter pattern is `undefined`. -/
theorem c3_unbound_parameter_error_names_undefined :
    extractHttpClassMetaDataFromClassDeclaration orgControllerClass =
      Except.error "No parameter with name undefined found in method findOrg" := rfl

/-- Claim C4: resolving a path parameter through a `@Params()` group
binding does not record the named property's type: even when the
decorator's type carries an `id: number` property, the lookup is made
with the `undefined` parameter name and throws. -/
theorem c4_group_binding_lookup_throws :
    extractHttpMethodMetaData "" getThingMethod =
      Except.error "Expected to find property undefined" := rfl

/-- Claim C2: for every route, the generated parameter list is exactly:
one parameter per `Parameter` path segment in path order, then the
request-body parameter if present, then the query-parameters parameter
if present, then always the trailing `options: RequestOptions`. -/
theorem c2_generated_parameter_order (md : HttpMethodMetaData) :
    generateHttpMethodParameters md md.path = specParameterOrder md := by
  unfold generateHttpMethodParameters specParameterOrder requestBodyStructures
    appendQueryAndOptions
  rw [foldl_push_eq_filterMap]
  cases hrb : md.requestBody with
  | none =>
    cases hq : md.queryParameters <;> simp [queryStructures, hq, List.append_assoc]
  | some rb =>
    cases htx : jsGetText rb.type with
    | error e => simp [htx]
    | ok tx =>
      cases hq : md.queryParameters <;>
        simp [queryStructures, hq, htx, List.append_assoc]

/-- Claim C6: false of the program.  `method.getType()` is the
method's *function* type (here `() => Promise<void>`), whose text never
starts with "Promise<" and which is never void, so the unwrap and
void-suppression branches of `extractResponseBody` are unreachable for
methods: the `ping(): Promise<void>` route keeps a `responseBody`
carrying the function type, and the generated return type is the
default object stringification inside the wrapper, not
`Promise<void>`. -/
theorem c6_void_not_suppressed :
    extractHttpMethodMetaData "" pingMethod = Except.ok pingMetaData ∧
    pingMetaData.responseBody ≠ none ∧
    generatedReturnType pingMetaData = "Promise<[object Object]>" ∧
    generatedReturnType pingMetaData ≠ "Promise<void>" :=
  ⟨rfl, by simp [pingMetaData], rfl, by decide⟩

/-- Claim C7: whenever `parsePath` yields segments for a route, they
are in number and order exactly the pieces of splitting (base path ++
path suffix) on the separator, parameter-pattern pieces as `Parameter`
segments and all other pieces (empty ones included) as verbatim
`Literal` segments. -/
theorem c7_segment_preservation (basePath : String) (d : Decorator) (m : MethodDeclaration)
    (segs : List PathSegment)
    (h : parsePath basePath d m = Except.ok segs) :
    segs.length = (jsSplit (basePath ++ extractPathOfDecorator d) '/').length ∧
    List.Forall₂ segmentMatchesPiece
      (jsSplit (basePath ++ extractPathOfDecorator d) '/') segs := by
  unfold parsePath at h
  have h2 := mapExcept_ok_forall2 h
  refine ⟨(List.Forall₂.length_eq h2).symm, List.Forall₂.imp ?_ h2⟩
  intro p s hps
  unfold parsePathSegment at hps
  simp only [segmentMatchesPiece]
  split at hps
  · rename_i mres hm
    split at hps
    · cases hps
    · rename_i t ht
      cases hps
      exact ⟨mres.group1, t, rfl⟩
  · rename_i hm
    cases hps
    rfl

/-- Witness for C7 at the concrete path `/users` ++ `/list`. -/
theorem c7_segment_preservation_witness :
    ([PathSegment.literal "", PathSegment.literal "users",
      PathSegment.literal "list"].length =
      (jsSplit ("/users" ++ extractPathOfDecorator listGetDecorator) '/').length) ∧
    List.Forall₂ segmentMatchesPiece
      (jsSplit ("/users" ++ extractPathOfDecorator listGetDecorator) '/')
      [PathSegment.literal "", PathSegment.literal "users", PathSegment.literal "list"] :=
  c7_segment_preservation "/users" listGetDecorator listMethod
    [PathSegment.literal "", PathSegment.literal "users", PathSegment.literal "list"] rfl

/-- Claim C8 counterexample: `toString` is not in the fixed vocabulary,
yet a method carrying only a `@toString()` decorator IS treated as a
route — the JavaScript `in` test on the verb-table object literal also
finds the keys it inherits from `Object.prototype`. -/
theorem c8_prototype_key_counterexample :
    ¬ ("toString" : String) ∈ recognizedDecoratorNames ∧
    isHttpMethod toStringOnlyMethod = true :=
  ⟨by decide, rfl⟩

/-- Claim C8 as amended: an annotation whose name is neither in the
fixed vocabulary nor an inherited `Object.prototype` key has no effect
on extraction — a method carrying only such decorators is not a route,
and inserting such a decorator anywhere in a method's decorator list
changes neither the selected verb decorator nor the extracted metadata
(whereas an `Object.prototype` key such as `toString` does make the
method a route). -/
theorem c8_amended_unrecognized_inert :
    (∀ m : MethodDeclaration,
      (∀ dd ∈ m.decorators,
        ¬ dd.name ∈ recognizedDecoratorNames ∧ ¬ dd.name ∈ objectPrototypeKeys) →
      isHttpMethod m = false) ∧
    (∀ (name : String) (l₁ l₂ : List Decorator) (d : Decorator)
      (params : List ParameterDeclaration) (ty : TsType) (basePath : String),
      ¬ d.name ∈ recognizedDecoratorNames → ¬ d.name ∈ objectPrototypeKeys →
      getHttpMethodDecorator ⟨name, l₁ ++ d :: l₂, params, ty⟩ =
        getHttpMethodDecorator ⟨name, l₁ ++ l₂, params, ty⟩ ∧
      extractHttpMethodMetaData basePath ⟨name, l₁ ++ d :: l₂, params, ty⟩ =
        extractHttpMethodMetaData basePath ⟨name, l₁ ++ l₂, params, ty⟩) := by
  constructor
  · intro m hall
    have hnone : m.decorators.find? (fun dd => jsInHttpMethodByDecoratorName dd.name) = none := by
      rw [List.find?_eq_none]
      intro dd hdd
      unfold jsInHttpMethodByDecoratorName
      rw [lookupHttpMethod_eq_none (hall dd hdd).1]
      simpa using (hall dd hdd).2
    unfold isHttpMethod getHttpMethodDecorator
    rw [hnone]
    rfl
  · intro name l₁ l₂ d params ty basePath hd1 hd2
    have hpd : jsInHttpMethodByDecoratorName d.name = false := by
      unfold jsInHttpMethodByDecoratorName
      rw [lookupHttpMethod_eq_none hd1]
      simpa using hd2
    have hfind : getHttpMethodDecorator ⟨name, l₁ ++ d :: l₂, params, ty⟩ =
        getHttpMethodDecorator ⟨name, l₁ ++ l₂, params, ty⟩ := by
      unfold getHttpMethodDecorator
      exact find?_middle_of_neg _ d hpd l₁ l₂
    refine ⟨hfind, ?_⟩
    unfold extractHttpMethodMetaData
    rw [hfind]
    cases getHttpMethodDecorator ⟨name, l₁ ++ l₂, params, ty⟩ with
    | none => rfl
    | some dd => rfl

/-- Witness for the amended C8: `Deprecated` is in neither list; a
method carrying only `@Deprecated()` is not a route, and inserting
`@Deprecated()` before the `@Get` decorator of the ping route leaves
extraction unchanged. -/
theorem c8_amended_unrecognized_inert_witness :
    isHttpMethod deprecatedOnlyMethod = false ∧
    extractHttpMethodMetaData ""
        ⟨"ping", [] ++ deprecatedDecorator :: [pingGetDecorator], [],
          TsType.functionType "" (TsType.generic "Promise" TsType.voidType)⟩ =
      extractHttpMethodMetaData ""
        ⟨"ping", [] ++ [pingGetDecorator], [],
          TsType.functionType "" (TsType.generic "Promise" TsType.voidType)⟩ :=
  ⟨c8_amended_unrecognized_inert.1 deprecatedOnlyMethod
      (by
        intro dd hdd
        cases hdd with
        | head => exact ⟨by decide, by decide⟩
        | tail _ h => cases h),
   (c8_amended_unrecognized_inert.2 "ping" [] [pingGetDecorator] deprecatedDecorator []
      (TsType.functionType "" (TsType.generic "Promise" TsType.voidType)) ""
      (by decide) (by decide)).2⟩

/-- Claim C9 counterexample: the decorator `@Get(42)` has a first
argument that is not a string literal, yet its path contribution is
"42", not the empty string — the piece the claim asserts contributes
nothing in fact lands verbatim in the route path. -/
theorem c9_nonliteral_argument_counterexample :
    extractPathOfDecorator numericArgDecorator = "42" ∧
    parsePath "" numericArgDecorator plainMethod =
      Except.ok [PathSegment.literal "42"] ∧
    ("42" : String) ≠ "" :=
  ⟨rfl, rfl, by decide⟩

/-- Claim C9 as amended: extraction never raises on a controller-role
or verb-role annotation's path argument; a missing first argument
contributes the empty string, while a present first argument — whether
or not it is a string literal — contributes its source text with
apostrophe characters removed. -/
theorem c9_amended_argument_contribution (d : Decorator) :
    (d.args = [] → extractPathOfDecorator d = "") ∧
    (∀ a rest, d.args = a :: rest → extractPathOfDecorator d = jsRemoveQuotes a) := by
  constructor
  · intro h
    unfold extractPathOfDecorator
    rw [h]
  · intro a rest h
    unfold extractPathOfDecorator
    rw [h]

/-- Witness for the amended C9 at a bare `@Controller()` and the
numeric-argument `@Get(42)`. -/
theorem c9_amended_argument_contribution_witness :
    extractPathOfDecorator bareControllerDecorator = "" ∧
    extractPathOfDecorator numericArgDecorator = jsRemoveQuotes "42" :=
  ⟨(c9_amended_argument_contribution bareControllerDecorator).1 rfl,
   (c9_amended_argument_contribution numericArgDecorator).2 "42" [] rfl⟩

/-- Claim C10: a file that qualifies for extraction (some class carries
`@Controller`) but whose name does not end in `.controller.ts` makes
extraction throw the unstructured TypeError of the non-null-asserted
failed regex match, instead of producing a RouteFile or a structured
extraction error. -/
theorem c10_non_controller_filename_crash (f : SourceFile)
    (h1 : isControllerFile f = true)
    (h2 : jsEndsWith f.baseName controllerFileSuffix = false) :
    extractHttpFileMetadata f = Except.error typeErrorNull ∧
    extractHttpFilesMetadata [f] = Except.error typeErrorNull := by
  have hb : extractFileBaseName f = Except.error typeErrorNull := by
    unfold extractFileBaseName execControllerFileName
    rw [h2]
    rfl
  have hfile : extractHttpFileMetadata f = Except.error typeErrorNull := by
    unfold extractHttpFileMetadata
    rw [hb]
  refine ⟨hfile, ?_⟩
  have hfil : List.filter isControllerFile [f] = [f] := by
    simp [List.filter, h1]
  unfold extractHttpFilesMetadata
  rw [hfil]
  unfold mapExcept
  rw [hfile]

/-- Witness for C10 at a controller-bearing file named `users.ts`. -/
theorem c10_non_controller_filename_crash_witness :
    isControllerFile badNameFile = true ∧
    jsEndsWith badNameFile.baseName controllerFileSuffix = false ∧
    extractHttpFileMetadata badNameFile = Except.error typeErrorNull :=
  ⟨rfl, rfl, (c10_non_controller_filename_crash badNameFile rfl rfl).1⟩
